import Mathlib

/-!
# Verification of the system-context scheduling layer

A shallow embedding of `include/exec/system_context.hpp`: the generic
scheduling/composition layer (scheduler handle, single-work sender and
operation state, bulk sender / intermediate receiver / bulk operation state,
execution-context facade).  The concrete backend
(`__detail/__system_context_default_impl.hpp`) is not part of the analysed
sources; where its behaviour is needed it is modelled from the spec's backend
contract (§6): a started abstract work object delivers exactly one completion
through the three-function receiver shim, and a bulk work object of size `n`
invokes the per-index callback once for each index in `[0, n)` and completes
once after all indices have run.

Observable behaviour is modelled as a trace of events: buffer allocations and
releases, per-index function invocations (with the values they read from the
shared argument buffer), and the three completion signals delivered to the
outer receiver.
-/

namespace SystemContext

/-- The completion outcome of an asynchronous stage: exactly one of
`value`/`stopped`/`error` (the three-channel completion protocol).
`ε` is the error-payload type (`std::exception_ptr` in the source), `α` the
value payload. -/
inductive Outcome (ε α : Type) where
  | value (a : α)
  | stopped
  | error (e : ε)
deriving DecidableEq, Repr

/-- Observable events of a run of a connected operation state.

* `allocArgs a` — the intermediate receiver heap-allocates the captured
  argument tuple (`new std::tuple<__As...>{__as...}`, system_context.hpp:226)
  holding `a` and stores it in the bulk state;
* `freeArgs` — a release of that buffer (no statement in
  system_context.hpp ever performs one: the file contains no `delete`);
* `invoke i a` — the type-erased per-index function runs `__fun_(i, args...)`
  with `args` read from the argument buffer (system_context.hpp:233-240);
* `recvValue` / `recvStopped` / `recvError e` — a completion signal delivered
  to the outer receiver through the three-function shim
  (system_context.hpp:149-161, 244-256, 264-274). -/
inductive Event (ε α : Type) where
  | allocArgs (a : α)
  | freeArgs
  | invoke (idx : Nat) (a : α)
  | recvValue
  | recvStopped
  | recvError (e : ε)
deriving DecidableEq, Repr

variable {ε α : Type}

/-- Is the event a completion signal delivered to the outer receiver? -/
def isCompletion : Event ε α → Bool
  | .recvValue => true
  | .recvStopped => true
  | .recvError _ => true
  | _ => false

/-- Is the event an invocation of the per-index function? -/
def isInvoke : Event ε α → Bool
  | .invoke _ _ => true
  | _ => false

/-- Is the event an invocation of the per-index function at index `i`? -/
def isInvokeIdx (i : Nat) : Event ε α → Bool
  | .invoke j _ => j == i
  | _ => false

/-- Is the event an allocation of the captured-argument buffer? -/
def isAlloc : Event ε α → Bool
  | .allocArgs _ => true
  | _ => false

/-- Is the event a release of the captured-argument buffer? -/
def isFree : Event ε α → Bool
  | .freeArgs => true
  | _ => false

/-- Number of completion signals the outer receiver observes in a trace. -/
def completionCount (tr : List (Event ε α)) : Nat :=
  tr.countP fun e => isCompletion e

/-- Number of per-index invocations at index `i` in a trace. -/
def invokeCount (tr : List (Event ε α)) (i : Nat) : Nat :=
  tr.countP fun e => isInvokeIdx i e

/-! ## Abstract backend interfaces (spec-modelled)

`__exec_system_scheduler_interface`, `__exec_system_sender_interface` and
`__exec_system_operation_state_interface` are declared in
`__detail/__system_context_default_impl.hpp`, which is not among the analysed
sources; they are modelled from the spec's backend contract (§6).  An abstract
operation state, once started, invokes exactly one of the shim's three
completion functions, so it is represented by the `Outcome` it will deliver;
an abstract sender is represented by what its `connect` returns: a work
object, or null ("the abstract factory returns no work object", §7d). -/

/-- Modelled from the spec: the abstract backend scheduler
(`__exec_system_scheduler_interface*`).  `id` is the pointer identity used by
`equals` ("equality is reference/identity equality delegated to the abstract
implementation", §3); `scheduleWork` is the abstract operation state that the
sender returned by the backend's `schedule()` factory yields on `connect` —
`none` models the factory producing no work object. -/
structure SchedulerIface (ε : Type) where
  id : Nat
  scheduleWork : Option (Outcome ε Unit)

/-- Modelled from the spec: the backend's identity-equality test invoked by
`system_scheduler::operator==` (system_context.hpp:59). -/
def SchedulerIface.equals (a b : SchedulerIface ε) : Bool :=
  a.id == b.id

/-- A call across the generic-to-backend boundary, recorded to settle whether
`schedule`/`bulk` are pure construction. -/
inductive BackendCall where
  | scheduleFactory
  | bulkFactory
deriving DecidableEq, Repr

/-! ## Scheduler handle and execution context -/

/-- `system_scheduler` (system_context.hpp:53-88): a value type wrapping the
backend scheduler interface pointer. -/
structure system_scheduler (ε : Type) where
  schedulerInterface : SchedulerIface ε

/-- `system_scheduler::operator==` (system_context.hpp:58-60): delegates to
the backend's `equals`. -/
def system_scheduler.eq (a b : system_scheduler ε) : Bool :=
  a.schedulerInterface.equals b.schedulerInterface

/-- `system_context` (system_context.hpp:30-50): owns a reference to the
backend implementation, which exposes one backend scheduler. -/
structure system_context (ε : Type) where
  impl : SchedulerIface ε

/-- `system_context::get_scheduler` (system_context.hpp:407-409): returns a
handle wrapping the context's backend scheduler. -/
def system_context.get_scheduler (c : system_context ε) : system_scheduler ε :=
  ⟨c.impl⟩

/-! ## Single-work sender and operation state -/

/-- `system_sender` (system_context.hpp:91-194): wraps
`__exec_system_sender_interface* __sender_impl_`, represented by the abstract
operation state its `connect` will return (or `none` for null). -/
structure system_sender (ε : Type) where
  senderImpl : Option (Outcome ε Unit)

/-- `tag_invoke(schedule_t, const system_scheduler&)`
(system_context.hpp:415-417): builds a `system_sender` around the result of
calling the backend's `schedule()` factory — a call into the backend made at
construction time, recorded in the returned call list. -/
def system_schedule (s : system_scheduler ε) :
    system_sender ε × List BackendCall :=
  (⟨s.schedulerInterface.scheduleWork⟩, [BackendCall.scheduleFactory])

/-- `system_sender::__op` (system_context.hpp:109-139): the single-work
operation state; `os` is `__os_`, the abstract operation state returned by the
backend sender's `connect` (null when the factory produced no work object). -/
structure SystemOp (ε : Type) where
  os : Option (Outcome ε Unit)

/-- `tag_invoke(connect_t, system_sender&&, __R&&)`
(system_context.hpp:143-165): stores sender and receiver in the operation
state and sets `__os_` from the backend sender's `connect`, passing the
three-function receiver shim.  The shim's wiring to the receiver is the
`shimDeliver` translation used at start. -/
def system_connect (snd : system_sender ε) : SystemOp ε :=
  ⟨snd.senderImpl⟩

/-- The three-function receiver shim (system_context.hpp:149-161): translates
the backend's completion into the corresponding receiver completion. -/
def shimDeliver : Outcome ε Unit → Event ε α
  | .value _ => .recvValue
  | .stopped => .recvStopped
  | .error e => .recvError e

/-- `tag_invoke(start_t, __op&)` (system_context.hpp:127-131): if `__os_` is
non-null, start it — the backend then delivers exactly one completion through
the shim (spec-modelled backend contract); if `__os_` is null, do nothing, and
no completion is ever delivered. -/
def systemStart (op : SystemOp ε) : List (Event ε α) :=
  match op.os with
  | none => []
  | some o => [shimDeliver o]

/-! ## Bulk sender, intermediate receiver, bulk operation state -/

/-- `system_bulk_sender` (system_context.hpp:326-400): holds the backend
scheduler pointer (`__scheduler_impl_`, default-initialised to null at
system_context.hpp:393, so `Option`), the previous sender (represented by the
completion outcome it delivers to the receiver it is connected to), the size
fixed at construction, and the per-index function (whose invocations are the
`invoke` events of the trace). -/
structure system_bulk_sender (ε α : Type) where
  schedulerImpl : Option Nat
  previous : Outcome ε α
  size : Nat

/-- `tag_invoke(bulk_t, const system_scheduler&, __S&&, __Size, __Fn)`
(system_context.hpp:424-433): constructs a `system_bulk_sender` from the
handle's backend pointer, the previous sender, the size and the function —
pure construction, no call into the backend (empty call list). -/
def system_bulk (s : system_scheduler ε) (previous : Outcome ε α) (size : Nat) :
    system_bulk_sender ε α × List BackendCall :=
  (⟨some s.schedulerInterface.id, previous, size⟩, [])

/-- `__bulk_state` (system_context.hpp:198-207): `argumentsData` is
`__arguments_data_` (null until the value completion allocates the captured
tuple), `os` is `__os_` (null until the bulk work object is connected).
`argWrites` counts the assignments to `__arguments_data_` (the source has
exactly one, at system_context.hpp:227). -/
structure BulkState (ε α : Type) where
  argumentsData : Option α
  os : Option Unit
  argWrites : Nat
deriving DecidableEq, Repr

/-- The initial bulk state built by `connect` (system_context.hpp:299,
member initialisers at 204-206): no buffer, no bulk operation state. -/
def initialBulkState : BulkState ε α :=
  ⟨none, none, 0⟩

/-- The type-erased per-index function (system_context.hpp:233-240): recovers
the bulk state from the opaque pointer and reads the argument tuple from
`__arguments_data_` to invoke `__fun_(idx, args...)`.  Reading the buffer is
modelled by `Option.map` over `argumentsData`. -/
def bulkPerIndexRead (st : BulkState ε α) (i : Nat) : Option (Event ε α) :=
  st.argumentsData.map fun a => .invoke i a

/-- `tag_invoke(set_value_t, __bulk_intermediate_receiver&&, __As&&...)`
(system_context.hpp:219-261): heap-allocate the captured argument tuple and
store it in the bulk state (before the scheduler null check); then, if the
scheduler pointer is non-null, obtain the backend bulk work object sized
`size`, connect it to the outer-receiver shim, and start it — the backend
(spec-modelled, §6/§4.3) invokes the per-index function once for each index
in `[0, size)`, each reading the argument buffer, and delivers one value
completion after all indices have run.  If the scheduler pointer is null,
return having dispatched nothing and delivered nothing
(the `TODO` at system_context.hpp:260). -/
def bulkIntermediateSetValue (sched : Option Nat) (size : Nat)
    (st : BulkState ε α) (a : α) : BulkState ε α × List (Event ε α) :=
  let st1 : BulkState ε α :=
    { st with argumentsData := some a, argWrites := st.argWrites + 1 }
  match sched with
  | some _ =>
    let st2 : BulkState ε α := { st1 with os := some () }
    let invs := (List.range size).filterMap fun i => bulkPerIndexRead st2 i
    (st2, .allocArgs a :: (invs ++ [.recvValue]))
  | none => (st1, [.allocArgs a])

/-- `tag_invoke(set_stopped_t, __bulk_intermediate_receiver&&)`
(system_context.hpp:264-266): forward `stopped` to the outer receiver; no
allocation, no bulk dispatch. -/
def bulkIntermediateSetStopped (st : BulkState ε α) :
    BulkState ε α × List (Event ε α) :=
  (st, [.recvStopped])

/-- `tag_invoke(set_error_t, __bulk_intermediate_receiver&&, exception_ptr)`
(system_context.hpp:269-274): forward the error payload verbatim to the outer
receiver; no allocation, no bulk dispatch. -/
def bulkIntermediateSetError (st : BulkState ε α) (e : ε) :
    BulkState ε α × List (Event ε α) :=
  (st, [.recvError e])

/-- `connect` on a `system_bulk_sender` (system_context.hpp:352-362) followed
by `tag_invoke(start_t, __bulk_op&)` (system_context.hpp:309-317): `connect`
builds the `__bulk_state` (buffer and `__os_` null) and connects `previous`
to the intermediate receiver; `start` first checks `__state_.__os_` — still
null at this point, so that branch does nothing — and then starts the
previous operation state, whose completion drives one of the three
intermediate-receiver handlers. -/
def bulk_connect_and_start (snd : system_bulk_sender ε α) :
    BulkState ε α × List (Event ε α) :=
  let st0 : BulkState ε α := initialBulkState
  match snd.previous with
  | .value a => bulkIntermediateSetValue snd.schedulerImpl snd.size st0 a
  | .stopped => bulkIntermediateSetStopped st0
  | .error e => bulkIntermediateSetError st0 e

/-- The final bulk state of a run of a bulk stage with scheduler pointer
`sched`, previous-stage outcome `prev` and size `n`. -/
def bulkRunState (sched : Option Nat) (prev : Outcome ε α) (n : Nat) :
    BulkState ε α :=
  (bulk_connect_and_start ⟨sched, prev, n⟩).1

/-- The event trace of a run of a bulk stage with scheduler pointer `sched`,
previous-stage outcome `prev` and size `n`. -/
def bulkRunTrace (sched : Option Nat) (prev : Outcome ε α) (n : Nat) :
    List (Event ε α) :=
  (bulk_connect_and_start ⟨sched, prev, n⟩).2

/-! ## Helper lemmas -/

theorem filterMap_some_eq_map {β γ : Type} (f : β → γ) (l : List β) :
    (l.filterMap fun b => some (f b)) = l.map f := by
  induction l with
  | nil => rfl
  | cons x xs ih => simp [List.filterMap_cons, ih]

/-- The trace of a bulk run whose scheduler is present and whose prior stage
completes with a value: the allocation, then one invocation per index in
order, then the single outer value completion. -/
theorem bulk_value_trace (sched : Nat) (a : α) (n : Nat) :
    bulkRunTrace (ε := ε) (some sched) (.value a) n
      = .allocArgs a :: (((List.range n).map fun i => .invoke i a) ++ [.recvValue]) := by
  simp [bulkRunTrace, bulk_connect_and_start, bulkIntermediateSetValue,
    bulkPerIndexRead, filterMap_some_eq_map]

/-- The final state of such a run: buffer holding the captured value, bulk
operation state materialised, exactly one buffer write. -/
theorem bulk_value_state (sched : Nat) (a : α) (n : Nat) :
    bulkRunState (ε := ε) (some sched) (.value a) n = ⟨some a, some (), 1⟩ := by
  simp [bulkRunState, bulk_connect_and_start, bulkIntermediateSetValue, initialBulkState]

/-- Counting invocations at index `i` among the fan-out events. -/
theorem countP_invoke_range (a : α) (i n : Nat) :
    (((List.range n).map fun j => (Event.invoke j a : Event ε α)).countP
        fun x => isInvokeIdx i x)
      = if i < n then 1 else 0 := by
  induction n with
  | zero => simp
  | succ m ih =>
    rw [List.range_succ, List.map_append, List.countP_append, ih]
    rcases Nat.lt_trichotomy i m with h | h | h
    · have hlt : i < m + 1 := Nat.lt_succ_of_lt h
      have hne : (m == i) = false := by simp [Nat.ne_of_gt h]
      simp [List.countP_cons, isInvokeIdx, hne, h, hlt]
    · subst h
      simp [List.countP_cons, isInvokeIdx, Nat.lt_irrefl, Nat.lt_succ_self]
    · have h1 : ¬ i < m := Nat.not_lt_of_gt h
      have h2 : ¬ i < m + 1 := Nat.not_lt.mpr (Nat.succ_le_of_lt h)
      have hne : (m == i) = false := by simp [Nat.ne_of_lt h]
      simp [List.countP_cons, isInvokeIdx, hne, h1, h2]

/-- A predicate false on invocation events counts zero among the fan-out
events. -/
theorem countP_invokes_eq_zero (p : Event ε α → Bool)
    (h : ∀ i b, p (.invoke i b) = false) (a : α) (n : Nat) :
    (((List.range n).map fun j => (Event.invoke j a : Event ε α)).countP p) = 0 := by
  rw [List.countP_eq_zero]
  intro x hx
  rcases List.mem_map.mp hx with ⟨j, _, hj⟩
  rw [← hj, h]
  simp

/-! ## Claim theorems -/

/-- Claim C1, counterexample: connecting a single-work sender whose backend
`connect` returned no work object (`__os_` null) and starting it delivers
zero completion signals to the receiver — not exactly one as the claim
states for every connected-and-started operation state. -/
theorem single_null_start_no_completion_cex :
    completionCount (systemStart (ε := Nat) (α := Nat) (system_connect ⟨none⟩)) = 0
  ∧ completionCount (systemStart (ε := Nat) (α := Nat) (system_connect ⟨none⟩)) ≠ 1 := by
  decide

/-- Claim C1 (amended): for every single-work operation state whose abstract
operation-state reference is non-null, and for every bulk operation state
whose scheduler pointer is non-null, starting it delivers exactly one of the
three completion signals {value, stopped, error} to the receiver — never
zero and never more than one.  (When the reference is null, no signal is
delivered; see the counterexample.) -/
theorem exactly_once_completion :
    (∀ (o : Outcome ε Unit), completionCount (systemStart (α := α) ⟨some o⟩) = 1)
  ∧ (∀ (sched : Nat) (prev : Outcome ε α) (n : Nat),
      completionCount (bulkRunTrace (some sched) prev n) = 1) := by
  constructor
  · intro o
    cases o <;> rfl
  · intro sched prev n
    cases prev with
    | value a =>
      rw [completionCount, bulk_value_trace, List.countP_cons, List.countP_append,
        countP_invokes_eq_zero (fun x => isCompletion x) (fun _ _ => rfl)]
      rfl
    | stopped => rfl
    | error e => rfl

/-- Claim C2, counterexample: a bulk stage of size 3 whose prior stage
completes with value 7 but whose scheduler pointer is null invokes index 0
zero times (the claim requires exactly once) and delivers no outer
completion. -/
theorem bulk_null_sched_no_fanout_cex :
    invokeCount (bulkRunTrace (ε := Nat) (α := Nat) none (.value 7) 3) 0 = 0
  ∧ completionCount (bulkRunTrace (ε := Nat) (α := Nat) none (.value 7) 3) = 0 := by
  decide

/-- Claim C2 (amended): for every bulk stage of size `n ≥ 0` whose scheduler
pointer is non-null, chained after a prior stage completing with a value,
the per-index function is invoked exactly once for each index in `[0, n)`
and zero times for every other index, the single outer completion is the
last event of the trace (so it fires only after all `n` invocations), and
for `n = 0` it fires with zero invocations. -/
theorem bulk_fanout_completeness (sched : Nat) (a : α) (n : Nat) :
    (∀ i, i < n → invokeCount (bulkRunTrace (ε := ε) (some sched) (.value a) n) i = 1)
  ∧ (∀ i, n ≤ i → invokeCount (bulkRunTrace (ε := ε) (some sched) (.value a) n) i = 0)
  ∧ completionCount (bulkRunTrace (ε := ε) (some sched) (.value a) n) = 1
  ∧ (bulkRunTrace (ε := ε) (some sched) (.value a) n).getLast? = some .recvValue := by
  refine ⟨?_, ?_, ?_, ?_⟩
  · intro i hi
    rw [invokeCount, bulk_value_trace, List.countP_cons, List.countP_append,
      countP_invoke_range]
    simp [isInvokeIdx, hi]
  · intro i hi
    rw [invokeCount, bulk_value_trace, List.countP_cons, List.countP_append,
      countP_invoke_range]
    simp [isInvokeIdx, Nat.not_lt.mpr hi]
  · rw [completionCount, bulk_value_trace, List.countP_cons, List.countP_append,
      countP_invokes_eq_zero (fun x => isCompletion x) (fun _ _ => rfl)]
    rfl
  · rw [bulk_value_trace, ← List.cons_append, List.getLast?_concat]

/-- Witness for `bulk_fanout_completeness` at scheduler 0, value 7, size 3. -/
theorem bulk_fanout_completeness_witness :
    invokeCount (bulkRunTrace (ε := Nat) (α := Nat) (some 0) (.value 7) 3) 1 = 1
  ∧ invokeCount (bulkRunTrace (ε := Nat) (α := Nat) (some 0) (.value 7) 3) 5 = 0
  ∧ completionCount (bulkRunTrace (ε := Nat) (α := Nat) (some 0) (.value 7) 3) = 1 :=
  ⟨(bulk_fanout_completeness 0 7 3).1 1 (by decide),
   (bulk_fanout_completeness 0 7 3).2.1 5 (by decide),
   (bulk_fanout_completeness 0 7 3).2.2.1⟩

/-- Claim C3: when the prior stage of a bulk stage completes with `stopped`
or with an error, the run forwards that very signal (with the identical
error payload) to the outer receiver as its whole trace, leaves the bulk
state untouched (no argument buffer allocated, no buffer write, no bulk
dispatch), and in particular performs zero per-index invocations. -/
theorem bulk_short_circuit (sched : Option Nat) (n m : Nat) (e : ε) :
    bulk_connect_and_start (⟨sched, .stopped, n⟩ : system_bulk_sender ε α)
        = (initialBulkState, [Event.recvStopped])
  ∧ bulk_connect_and_start (⟨sched, .error e, m⟩ : system_bulk_sender ε α)
        = (initialBulkState, [Event.recvError e]) :=
  ⟨rfl, rfl⟩

/-- Claim C4, counterexample: constructing a schedule sender performs a call
into the backend (its `schedule()` factory) — the call list is not empty,
refuting "no calls into the backend until connected and started". -/
theorem schedule_not_pure_construction_cex :
    (system_schedule (⟨⟨0, none⟩⟩ : system_scheduler Nat)).2 ≠ [] := by
  decide

/-- Claim C4 (amended): the bulk operation is pure construction — it performs
no call into the backend — but the schedule operation calls the backend's
`schedule()` factory (and only that) already at construction time, before
the resulting computation is connected and started. -/
theorem bulk_pure_schedule_calls_backend (s : system_scheduler ε)
    (prev : Outcome ε α) (n : Nat) :
    (system_bulk s prev n).2 = []
  ∧ (system_schedule s).2 = [BackendCall.scheduleFactory] :=
  ⟨rfl, rfl⟩

/-- Claim C5: for a connected single-work operation state whose abstract
operation-state reference is null (the backend factory produced no work
object), `start` is a no-op: the trace is empty, so no completion signal of
any kind is ever delivered to the receiver — the operation is silently
dropped, not reported as an error. -/
theorem null_work_silent_drop :
    systemStart (system_connect (⟨none⟩ : system_sender ε)) = ([] : List (Event ε α))
  ∧ completionCount (systemStart (α := α) (system_connect (⟨none⟩ : system_sender ε))) = 0 :=
  ⟨rfl, rfl⟩

/-- Claim C6, counterexample: a completed bulk run (scheduler present, prior
value 7, size 2) has fired its single outer completion — all indices have
run — yet no release of the argument buffer ever occurred and the bulk state
still holds the buffer, refuting "consumed and released once all indices
have run". -/
theorem bulk_buffer_not_released_cex :
    completionCount (bulkRunTrace (ε := Nat) (α := Nat) (some 0) (.value 7) 2) = 1
  ∧ (bulkRunTrace (ε := Nat) (α := Nat) (some 0) (.value 7) 2).countP
      (fun x => isFree x) = 0
  ∧ (bulkRunState (ε := Nat) (α := Nat) (some 0) (.value 7) 2).argumentsData = some 7 := by
  decide

/-- Claim C6 (amended): the captured-argument buffer is allocated only after
(and if) the prior stage signals value — the allocation opens the trace on
the value path and never happens on the stopped/error paths — and its
lifetime strictly contains every per-index invocation; but it is never
released: no release event occurs on any path (the source contains no
`delete`), so the buffer leaks. -/
theorem bulk_buffer_lifetime (sched : Nat) (a : α) (n m : Nat) (e : ε)
    (s2 : Option Nat) :
    bulkRunTrace (ε := ε) (some sched) (.value a) n
      = .allocArgs a :: (((List.range n).map fun i => .invoke i a) ++ [.recvValue])
  ∧ (bulkRunTrace (ε := ε) (some sched) (.value a) n).countP (fun x => isFree x) = 0
  ∧ (bulkRunTrace (ε := ε) (α := α) s2 .stopped m).countP (fun x => isAlloc x) = 0
  ∧ (bulkRunTrace (ε := ε) (α := α) s2 (.error e) m).countP (fun x => isAlloc x) = 0 := by
  refine ⟨bulk_value_trace sched a n, ?_, ?_, ?_⟩
  · rw [bulk_value_trace, List.countP_cons, List.countP_append,
      countP_invokes_eq_zero (fun x => isFree x) (fun _ _ => rfl)]
    rfl
  · cases s2 <;> rfl
  · cases s2 <;> rfl

/-- Claim C7: all per-index invocations of a bulk run observe the identical
value produced by the prior stage's value completion: every invocation event
carries exactly the value held by the single shared argument buffer in the
bulk state, and that buffer was written exactly once (by the value
completion that created it). -/
theorem bulk_argument_sharing (sched : Nat) (a : α) (n : Nat) :
    (∀ i b, Event.invoke i b ∈ bulkRunTrace (ε := ε) (some sched) (.value a) n → b = a)
  ∧ (bulkRunState (ε := ε) (some sched) (.value a) n).argumentsData = some a
  ∧ (bulkRunState (ε := ε) (some sched) (.value a) n).argWrites = 1 := by
  refine ⟨?_, ?_, ?_⟩
  · intro i b hmem
    rw [bulk_value_trace] at hmem
    simp only [List.mem_cons, List.mem_append, List.mem_map, List.mem_singleton] at hmem
    rcases hmem with h | ⟨j, _, hj⟩ | h
    · exact absurd h (by simp)
    · injection hj with h1 h2
      exact h2.symm
    · exact absurd h (by simp)
  · rw [bulk_value_state]
  · rw [bulk_value_state]

/-- Witness for `bulk_argument_sharing` at scheduler 0, value 5, size 2:
the invocation at index 1 observes 5, the buffer holds 5, written once. -/
theorem bulk_argument_sharing_witness :
    (5 : Nat) = 5
  ∧ (bulkRunState (ε := Nat) (α := Nat) (some 0) (.value 5) 2).argWrites = 1 :=
  ⟨(bulk_argument_sharing (ε := Nat) 0 5 2).1 1 5 (by decide),
   (bulk_argument_sharing (ε := Nat) 0 5 2).2.2⟩

/-- Claim C8: scheduler-handle equality delegates to the backend's identity
test and is an equivalence relation — reflexive, symmetric, transitive; two
handles obtained from the same execution context compare equal, and handles
from contexts with distinct backends compare unequal. -/
theorem scheduler_equality_props :
    (∀ a : system_scheduler ε, a.eq a = true)
  ∧ (∀ a b : system_scheduler ε, a.eq b = true ↔ b.eq a = true)
  ∧ (∀ a b c : system_scheduler ε, a.eq b = true → b.eq c = true → a.eq c = true)
  ∧ (∀ ctx : system_context ε, ctx.get_scheduler.eq ctx.get_scheduler = true)
  ∧ (∀ c1 c2 : system_context ε, c1.impl.id ≠ c2.impl.id →
      c1.get_scheduler.eq c2.get_scheduler = false) := by
  refine ⟨?_, ?_, ?_, ?_, ?_⟩
  · intro a
    simp [system_scheduler.eq, SchedulerIface.equals]
  · intro a b
    simp only [system_scheduler.eq, SchedulerIface.equals, beq_iff_eq]
    exact eq_comm
  · intro a b c hab hbc
    simp only [system_scheduler.eq, SchedulerIface.equals, beq_iff_eq] at *
    exact hab.trans hbc
  · intro ctx
    simp [system_context.get_scheduler, system_scheduler.eq, SchedulerIface.equals]
  · intro c1 c2 h
    simp [system_context.get_scheduler, system_scheduler.eq, SchedulerIface.equals, h]

/-- Witness for `scheduler_equality_props` on concrete handles and contexts:
transitivity at three equal-id handles, and inequality of handles from two
contexts with distinct backends. -/
theorem scheduler_equality_props_witness :
    (⟨⟨4, none⟩⟩ : system_scheduler Nat).eq ⟨⟨4, none⟩⟩ = true
  ∧ (⟨⟨1, none⟩⟩ : system_context Nat).get_scheduler.eq
      (⟨⟨2, none⟩⟩ : system_context Nat).get_scheduler = false :=
  ⟨scheduler_equality_props.2.2.1 ⟨⟨4, none⟩⟩ ⟨⟨4, none⟩⟩ ⟨⟨4, none⟩⟩
      (by decide) (by decide),
   scheduler_equality_props.2.2.2.2 ⟨⟨1, none⟩⟩ ⟨⟨2, none⟩⟩ (by decide)⟩

/-- Claim C10: when the bulk stage's scheduler pointer is null and the prior
stage completes with a value, the intermediate receiver still allocates the
argument buffer and stores it in the bulk state, then returns having
dispatched no bulk work (the bulk operation state stays null), delivered no
completion, performed no invocation — and never releases the buffer. -/
theorem bulk_null_scheduler_drop (a : α) (n : Nat) :
    bulk_connect_and_start (⟨none, .value a, n⟩ : system_bulk_sender ε α)
      = (⟨some a, none, 1⟩, [Event.allocArgs a])
  ∧ completionCount (bulkRunTrace (ε := ε) none (.value a) n) = 0
  ∧ (bulkRunTrace (ε := ε) none (.value a) n).countP (fun x => isInvoke x) = 0
  ∧ (bulkRunTrace (ε := ε) none (.value a) n).countP (fun x => isFree x) = 0 :=
  ⟨rfl, rfl, rfl, rfl⟩

end SystemContext
